import Mathlib

/-!
Verification of the MagicLens intent resolver (`src/app/api/agent/route.ts`).

The resolver takes a free-text user instruction, the current structured
parameters (`FIBOParams`) and a mask-presence flag, and produces an
operation classification, updated parameters, a downstream prompt, a
mask-requirement flag and a user-facing message.  Two code paths exist:
the rule-based fallback `mockAgentResponse` and the LLM-backed path whose
post-parse validation step is `llmValidate` below.

JavaScript strings are modelled as `String` / `List Char`; the regular
expressions of the source are embedded as executable predicates over
`List Char` with JS `\b` word-boundary and `.` (no line terminator)
semantics.  JS numbers are modelled as `Int`: every arithmetic operation
performed by the resolver (adding ±15/±30/±45, `Math.max`/`Math.min`
clamps) is exact integer arithmetic.
-/

namespace MagicLens

/-- `OperationType` from `src/app/lib/types.ts`: the six-value enumeration of
operations the agent can detect. -/
inductive OperationType where
  | inpaint_remove
  | inpaint_replace
  | inpaint_add
  | style_transfer
  | generate_new
  | camera_adjust
deriving DecidableEq, Repr

/-- The string tag of an operation, as it appears in the TypeScript source. -/
def opString : OperationType → String
  | .inpaint_remove => "inpaint_remove"
  | .inpaint_replace => "inpaint_replace"
  | .inpaint_add => "inpaint_add"
  | .style_transfer => "style_transfer"
  | .generate_new => "generate_new"
  | .camera_adjust => "camera_adjust"

/-- The list of all six operations (mirrors `validOperations` in `route.ts`). -/
def allOperations : List OperationType :=
  [.inpaint_remove, .inpaint_replace, .inpaint_add,
   .style_transfer, .generate_new, .camera_adjust]

/-- `validOperations` from `route.ts` line 163: the allow-list of operation tags. -/
def validOperations : List String :=
  ["inpaint_remove", "inpaint_replace", "inpaint_add",
   "style_transfer", "generate_new", "camera_adjust"]

/-- The three mask-required operations
(the literal list of the three inpaint tags in `route.ts` line 271). -/
def maskRequiredStrings : List String :=
  ["inpaint_remove", "inpaint_replace", "inpaint_add"]

/-- The mask-required operations as enumeration members. -/
def maskRequiredOps : List OperationType :=
  [.inpaint_remove, .inpaint_replace, .inpaint_add]

/-- `CameraParams` from `types.ts`.  JS numbers modelled as `Int`. -/
structure CameraParams where
  yaw : Int
  pitch : Int
  roll : Int
  fov : Int
deriving DecidableEq, Repr

/-- `FIBOParams` from `types.ts`.  Optional TS fields become `Option`. -/
structure FIBOParams where
  camera : CameraParams
  lighting : String
  color_palette : Option String
  composition : String
  edit_mode : Option String
  subject_description : Option String
  realism_level : String
  output_format : String
deriving DecidableEq, Repr

/-- `DEFAULT_FIBO_PARAMS` from `types.ts`. -/
def DEFAULT_FIBO_PARAMS : FIBOParams :=
  { camera := { yaw := 0, pitch := 0, roll := 0, fov := 40 },
    lighting := "studio_soft",
    color_palette := none,
    composition := "centered",
    edit_mode := none,
    subject_description := none,
    realism_level := "high",
    output_format := "hdr_16bit" }

/-- `AgentResponse` from `types.ts` (both resolver paths always populate every
field, so none is optional here). -/
structure AgentResponse where
  operation : OperationType
  needsMask : Bool
  params : FIBOParams
  prompt : String
  response : String
deriving DecidableEq, Repr

/- ## Embedding of the JavaScript regular-expression tests -/

/-- JS `\w`: ASCII letters, digits and underscore. -/
def isWordChar (c : Char) : Bool :=
  ('a' ≤ c && c ≤ 'z') || ('A' ≤ c && c ≤ 'Z') || ('0' ≤ c && c ≤ '9') || c = '_'

/-- JS `\s`: whitespace characters matched by the regex whitespace class. -/
def wsChar (c : Char) : Bool :=
  c = ' ' || c = '\t' || c = '\n' || c = '\r' ||
  c.val = 0x0B || c.val = 0x0C || c.val = 0xA0 || c.val = 0x1680 ||
  (0x2000 ≤ c.val && c.val ≤ 0x200A) || c.val = 0x2028 || c.val = 0x2029 ||
  c.val = 0x202F || c.val = 0x205F || c.val = 0x3000 || c.val = 0xFEFF

/-- JS `.` without the `s` flag: any character except a line terminator. -/
def dotChar (c : Char) : Bool :=
  !(c = '\n' || c = '\r' || c.val = 0x2028 || c.val = 0x2029)

/-- Whether the character at index `i` (if any) is a word character. -/
def wcAt (s : List Char) (i : Nat) : Bool :=
  match s.get? i with
  | some c => isWordChar c
  | none => false

/-- JS `\b` word boundary at position `i` of `s` (positions run from `0` to
`s.length`): the word-ness of the characters on either side differs, with
out-of-range counting as non-word. -/
def boundaryAt (s : List Char) (i : Nat) : Bool :=
  (if i = 0 then false else wcAt s (i - 1)) != wcAt s i

/-- The literal `w` occurs at position `i` of `s` with a `\b` boundary on each
side (all keywords of the source start and end with word characters, so
`\bw\b` is exactly this). -/
def wordOccursAt (s w : List Char) (i : Nat) : Bool :=
  w.isPrefixOf (s.drop i) && boundaryAt s i && boundaryAt s (i + w.length)

/-- `\b(k₁|k₂|…)\b` tested against `s`: some alternative occurs word-bounded
somewhere in `s`. -/
def containsWordAnyOf (s : List Char) (ws : List String) : Bool :=
  (List.range (s.length + 1)).any fun i => ws.any fun w => wordOccursAt s w.toList i

/-- A single word-bounded occurrence of `w` somewhere in `s`. -/
def containsWord (s : List Char) (w : String) : Bool :=
  containsWordAnyOf s [w]

/-- `String.includes` of JS: plain substring containment. -/
def hasSub (lower : List Char) (needle : String) : Bool :=
  (List.range (lower.length + 1)).any fun i => needle.toList.isPrefixOf (lower.drop i)

/-- `userMessage.toLowerCase()` (ASCII case mapping) as a character list. -/
def lowerOf (s : String) : List Char :=
  s.toList.map Char.toLower

/-- `String.startsWith` of JS, on the character lists of the strings. -/
def jsStartsWith (s pre : String) : Bool :=
  pre.toList.isPrefixOf s.toList

def removeVerbStrs : List String := ["remove", "delete", "erase", "get rid of", "clear", "eliminate"]
def replaceVerbStrs : List String := ["replace", "change", "swap", "turn", "convert"]
def connectorStrs : List String := ["to", "into", "with"]
def addVerbStrs : List String := ["add", "put", "place", "insert", "include"]

/-- Test of `/\b(remove|delete|erase|get rid of|clear|eliminate)\b/` (route.ts line 195). -/
def removeTestB (s : List Char) : Bool :=
  containsWordAnyOf s removeVerbStrs

/-- Test of `/\b(replace|change|swap|turn|convert)\b.*\b(to|into|with)\b/`
(route.ts line 203): a word-bounded replace-verb at `i`, a word-bounded
connector at `j ≥ i + |verb|`, and only `.`-matchable characters between. -/
def replaceTestB (s : List Char) : Bool :=
  (List.range (s.length + 1)).any fun i =>
    replaceVerbStrs.any fun v =>
      wordOccursAt s v.toList i &&
      ((List.range (s.length + 1)).any fun j =>
        decide (i + v.toList.length ≤ j) &&
        connectorStrs.any (fun c => wordOccursAt s c.toList j) &&
        ((s.drop (i + v.toList.length)).take (j - (i + v.toList.length))).all dotChar)

/-- Test of `/\b(add|put|place|insert|include)\b/` (route.ts line 213). -/
def addTestB (s : List Char) : Bool :=
  containsWordAnyOf s addVerbStrs

/-- Test of `/\b(zoom|rotate|tilt|angle|pan)\b/` (route.ts line 221). -/
def cameraTestB (s : List Char) : Bool :=
  containsWordAnyOf s ["zoom", "rotate", "tilt", "angle", "pan"]

/-- Test of `/\b(add|remove|change|style)\b/` (route.ts line 221). -/
def cameraExcludeB (s : List Char) : Bool :=
  containsWordAnyOf s ["add", "remove", "change", "style"]

/-- Test of `/\b(create|generate|imagine|make me a|design)\b/` (route.ts line 226). -/
def generateTestB (s : List Char) : Bool :=
  containsWordAnyOf s ["create", "generate", "imagine", "make me a", "design"]

/- ## Embedding of the capture regexes (`String.match`)

The three extraction regexes of the source are unanchored and use greedy
`\s+`, a greedy optional article group and a lazy `(.+?)`.  Each is embedded
as an explicit search that enumerates candidate segmentations in exactly the
backtracking order of the JS regex engine (start positions ascending;
alternatives in written order; greedy pieces longest-first; lazy pieces
shortest-first) and returns the capture of the first overall match. -/

/-- Length of the maximal run of `p`-characters of `s` starting at `i`. -/
def runLen (p : Char → Bool) (s : List Char) (i : Nat) : Nat :=
  ((s.drop i).takeWhile p).length

/-- `[n, n-1, …, 1]`: candidate lengths for a greedy `+` piece. -/
def descRange (n : Nat) : List Nat :=
  (List.range' 1 n).reverse

/-- The slice `s[pos … pos+len)`. -/
def sliceAt (s : List Char) (pos len : Nat) : List Char :=
  (s.drop pos).take len

/-- End positions reachable by the greedy optional group `(?:the\s+)?` starting
at `p`, in backtracking order (present — with `\s+` longest-first — before
absent). -/
def theOptEnds (s : List Char) (p : Nat) : List Nat :=
  (if ("the".toList).isPrefixOf (s.drop p) then
    (descRange (runLen wsChar s (p + 3))).map (fun k => p + 3 + k)
   else []) ++ [p]

/-- Whether the tail `(?:\s+from|\s+in|\s*$)` of the removal capture regex can
match starting at `p`. -/
def removeTailOk (s : List Char) (p : Nat) : Bool :=
  let n := runLen wsChar s p
  ((List.range' 1 n).any fun k => ("from".toList).isPrefixOf (s.drop (p + k))) ||
  ((List.range' 1 n).any fun k => ("in".toList).isPrefixOf (s.drop (p + k))) ||
  (p + n == s.length)

/-- Group 1 of
`/(?:remove|delete|erase|get rid of|clear|eliminate)\s+(?:the\s+)?(.+?)(?:\s+from|\s+in|\s*$)/`
(route.ts line 197) against `s`, or `none` when the regex does not match. -/
def removeExtract (s : List Char) : Option (List Char) :=
  (List.range (s.length + 1)).findSome? fun i =>
    removeVerbStrs.findSome? fun v =>
      if (v.toList).isPrefixOf (s.drop i) then
        let p1 := i + v.toList.length
        (descRange (runLen wsChar s p1)).findSome? fun k =>
          (theOptEnds s (p1 + k)).findSome? fun p3 =>
            (List.range' 1 (runLen dotChar s p3)).findSome? fun m =>
              if removeTailOk s (p3 + m) then some (sliceAt s p3 m) else none
      else none

/-- Groups 1 and 2 of
`/(?:replace|change|swap|turn|convert)\s+(?:the\s+)?(.+?)\s+(?:to|into|with)\s+(.+?)(?:\s*$)/`
(route.ts line 205) against `s`, or `none` when the regex does not match. -/
def replaceExtract (s : List Char) : Option (List Char × List Char) :=
  (List.range (s.length + 1)).findSome? fun i =>
    replaceVerbStrs.findSome? fun v =>
      if (v.toList).isPrefixOf (s.drop i) then
        let p1 := i + v.toList.length
        (descRange (runLen wsChar s p1)).findSome? fun k1 =>
          (theOptEnds s (p1 + k1)).findSome? fun p3 =>
            (List.range' 1 (runLen dotChar s p3)).findSome? fun m =>
              let p4 := p3 + m
              (descRange (runLen wsChar s p4)).findSome? fun k2 =>
                let p5 := p4 + k2
                connectorStrs.findSome? fun c =>
                  if (c.toList).isPrefixOf (s.drop p5) then
                    let p6 := p5 + c.toList.length
                    (descRange (runLen wsChar s p6)).findSome? fun k3 =>
                      let p7 := p6 + k3
                      (List.range' 1 (runLen dotChar s p7)).findSome? fun q =>
                        if p7 + q + runLen wsChar s (p7 + q) == s.length then
                          some (sliceAt s p3 m, sliceAt s p7 q)
                        else none
                  else none
      else none

/-- End positions reachable by the greedy optional group `(?:a\s+|some\s+)?`
starting at `p`, in backtracking order. -/
def addOptEnds (s : List Char) (p : Nat) : List Nat :=
  (if ("a".toList).isPrefixOf (s.drop p) then
    (descRange (runLen wsChar s (p + 1))).map (fun k => p + 1 + k)
   else []) ++
  (if ("some".toList).isPrefixOf (s.drop p) then
    (descRange (runLen wsChar s (p + 4))).map (fun k => p + 4 + k)
   else []) ++
  [p]

/-- Whether the tail `(?:\s+here|\s+there|\s+in|\s+on|\s*$)` of the add capture
regex can match starting at `p`. -/
def addTailOk (s : List Char) (p : Nat) : Bool :=
  let n := runLen wsChar s p
  ((List.range' 1 n).any fun k => ("here".toList).isPrefixOf (s.drop (p + k))) ||
  ((List.range' 1 n).any fun k => ("there".toList).isPrefixOf (s.drop (p + k))) ||
  ((List.range' 1 n).any fun k => ("in".toList).isPrefixOf (s.drop (p + k))) ||
  ((List.range' 1 n).any fun k => ("on".toList).isPrefixOf (s.drop (p + k))) ||
  (p + n == s.length)

/-- Group 1 of
`/(?:add|put|place|insert|include)\s+(?:a\s+|some\s+)?(.+?)(?:\s+here|\s+there|\s+in|\s+on|\s*$)/`
(route.ts line 215) against `s`, or `none` when the regex does not match. -/
def addExtract (s : List Char) : Option (List Char) :=
  (List.range (s.length + 1)).findSome? fun i =>
    addVerbStrs.findSome? fun v =>
      if (v.toList).isPrefixOf (s.drop i) then
        let p1 := i + v.toList.length
        (descRange (runLen wsChar s p1)).findSome? fun k =>
          (addOptEnds s (p1 + k)).findSome? fun p3 =>
            (List.range' 1 (runLen dotChar s p3)).findSome? fun m =>
              if addTailOk s (p3 + m) then some (sliceAt s p3 m) else none
      else none

/-- `String.trim` of JS: strip leading and trailing whitespace. -/
def trimWs (l : List Char) : List Char :=
  ((l.dropWhile wsChar).reverse.dropWhile wsChar).reverse

/- ## The rule-based resolver `mockAgentResponse` -/

/-- The intent classification produced by the `if`/`else if` chain of
`mockAgentResponse` (route.ts lines 190-238): the operation together with the
`subject_description` assignment (`none` when the branch leaves it untouched),
the prompt and the branch-specific response text. -/
structure ClassifyResult where
  operation : OperationType
  subject : Option String
  prompt : String
  response : String
deriving DecidableEq, Repr

/-- The classification chain of `mockAgentResponse` (route.ts lines 190-238).
`lower` is the lowercased message, `userMessage` the raw one. -/
def classifyIntent (userMessage : String) (lower : List Char) (hasMask : Bool) :
    ClassifyResult :=
  if removeTestB lower then
    let sd := match removeExtract lower with
      | some cap => String.mk (trimWs cap)
      | none => userMessage
    { operation := .inpaint_remove,
      subject := some sd,
      prompt := "Remove " ++ sd ++ " from the marked area and fill with natural background",
      response := "🗑️ I\u0027ll remove \"" ++ sd ++ "\" from the marked area. Click Generate!" }
  else if replaceTestB lower then
    match replaceExtract lower with
    | some (g1, g2) =>
      { operation := .inpaint_replace,
        subject := some ("Replace " ++ String.mk g1 ++ " with " ++ String.mk g2),
        prompt := "Replace " ++ String.mk g1 ++ " with " ++ String.mk g2 ++
          " in the marked area, blend naturally",
        response := "🔄 I\u0027ll replace that for you. Click Generate!" }
    | none =>
      { operation := .inpaint_replace,
        subject := none,
        prompt := userMessage,
        response := "🔄 I\u0027ll replace that for you. Click Generate!" }
  else if addTestB lower then
    let sd := match addExtract lower with
      | some cap => String.mk (trimWs cap)
      | none => userMessage
    { operation := if hasMask then .inpaint_add else .style_transfer,
      subject := some sd,
      prompt := "Add " ++ sd ++ " in the marked area, blend seamlessly",
      response := "✨ I\u0027ll add \"" ++ sd ++ "\" to the marked area. Click Generate!" }
  else if cameraTestB lower && !cameraExcludeB lower then
    { operation := .camera_adjust,
      subject := none,
      prompt := userMessage,
      response := "📷 Camera adjusted! Click Generate to see the new angle." }
  else if generateTestB lower && !hasMask then
    { operation := .generate_new,
      subject := some userMessage,
      prompt := userMessage,
      response := "🎨 I\u0027ll generate that for you. Click Generate!" }
  else
    { operation := .style_transfer,
      subject := some userMessage,
      prompt := userMessage,
      response := "🎨 I\u0027ll apply those changes. Click Generate!" }

/-- Yaw adjustment for "left" (route.ts lines 241-244). -/
def adjustYawLeft (lower : List Char) (yaw : Int) : Int :=
  if hasSub lower "left" && !hasSub lower "tilt" then
    max (-180) (yaw + (if hasSub lower "slight" then -15 else if hasSub lower "hard" then -45 else -30))
  else yaw

/-- Yaw adjustment for "right" (route.ts lines 245-248). -/
def adjustYawRight (lower : List Char) (yaw : Int) : Int :=
  if hasSub lower "right" && !hasSub lower "copyright" && !hasSub lower "tilt" then
    min 180 (yaw + (if hasSub lower "slight" then 15 else if hasSub lower "hard" then 45 else 30))
  else yaw

/-- Field-of-view adjustment for "zoom in"/"closer" (route.ts lines 249-251). -/
def adjustFovIn (lower : List Char) (fov : Int) : Int :=
  if hasSub lower "zoom in" || hasSub lower "closer" then max 10 (fov - 15) else fov

/-- Field-of-view adjustment for "zoom out"/"wider" (route.ts lines 252-254). -/
def adjustFovOut (lower : List Char) (fov : Int) : Int :=
  if hasSub lower "zoom out" || hasSub lower "wider" then min 120 (fov + 15) else fov

/-- Sequential lighting keyword overwrites (route.ts lines 257-260). -/
def updateLighting (lower : List Char) (l : String) : String :=
  let l1 := if hasSub lower "dramatic" then "dramatic_side" else l
  let l2 := if hasSub lower "soft" then "studio_soft" else l1
  let l3 := if hasSub lower "natural" || hasSub lower "daylight" then "natural_daylight" else l2
  if hasSub lower "neon" then "neon" else l3

/-- Sequential color-palette keyword overwrites (route.ts lines 263-265). -/
def updateColor (lower : List Char) (c : Option String) : Option String :=
  let c1 := if hasSub lower "warm" then some "warm" else c
  let c2 := if hasSub lower "cool" || hasSub lower "cold" then some "cool" else c1
  if hasSub lower "vibrant" then some "vibrant" else c2

/-- The mask-request override message (route.ts lines 273-276);
`sd` is the `subject_description` of the updated parameters
(`updatedParams.subject_description` with the generic fallback `the area`). -/
def maskRequestMessage (sd : Option String) : String :=
  let objectName := match sd with
    | some s => if s = "" then "the area" else s
    | none => "the area"
  "🎯 Please draw on " ++ objectName ++
    " first!\n\nUse the brush tool to mark the area, then click \"Generate\"."

/-- `mockAgentResponse` (route.ts lines 181-287): the deterministic rule-based
resolver. -/
def mockAgentResponse (userMessage : String) (currentParams : FIBOParams)
    (hasMask : Bool) : AgentResponse :=
  let lower := lowerOf userMessage
  let c := classifyIntent userMessage lower hasMask
  let finalSubject := match c.subject with
    | some s => some s
    | none => currentParams.subject_description
  let yaw := adjustYawRight lower (adjustYawLeft lower currentParams.camera.yaw)
  let fov := adjustFovOut lower (adjustFovIn lower currentParams.camera.fov)
  let needsMask := maskRequiredStrings.contains (opString c.operation) && !hasMask
  { operation := c.operation,
    needsMask := needsMask,
    params := { currentParams with
      camera := { currentParams.camera with yaw := yaw, fov := fov },
      lighting := updateLighting lower currentParams.lighting,
      color_palette := updateColor lower currentParams.color_palette,
      subject_description := finalSubject,
      edit_mode := some (if jsStartsWith (opString c.operation) "inpaint" then "mask" else "full") },
    prompt := c.prompt,
    response := if needsMask then maskRequestMessage finalSubject else c.response }

/- ## The LLM-backed path: post-parse validation (`callOpenAI`) and `POST` -/

/-- The successfully parsed JSON body returned by the external model, as read
by `callOpenAI` (route.ts lines 156-174).  Each field the code probes is
`Option` (absent in the JSON versus present); `rawParams` stands for the
parsed object itself reinterpreted as parameters, used by the
`parsed.params || parsed` fallback. -/
structure LLMParsed where
  operation : Option String
  needsMask : Option Bool
  params : Option FIBOParams
  rawParams : FIBOParams
  prompt : Option String
  response : Option String
deriving Repr

/-- Decode an operation tag string into the enumeration; succeeds exactly on
the six members of `validOperations`. -/
def parseOperation (s : String) : Option OperationType :=
  if s = "inpaint_remove" then some .inpaint_remove
  else if s = "inpaint_replace" then some .inpaint_replace
  else if s = "inpaint_add" then some .inpaint_add
  else if s = "style_transfer" then some .style_transfer
  else if s = "generate_new" then some .generate_new
  else if s = "camera_adjust" then some .camera_adjust
  else none

/-- The validation step of `callOpenAI` (route.ts lines 162-174), applied after
the response body has been parsed: allow-list the operation tag with the
`hasMask`-dependent default, default `needsMask` to `false`, fall back to the
raw object for `params`, to `""` for `prompt`, and to the fixed message for a
missing or empty `response` (JS `||` on strings treats `""` as absent). -/
def llmValidate (parsed : LLMParsed) (hasMask : Bool) : AgentResponse :=
  let operation := match parsed.operation with
    | some t =>
      match parseOperation t with
      | some op => op
      | none => if hasMask then .inpaint_replace else .style_transfer
    | none => if hasMask then .inpaint_replace else .style_transfer
  { operation := operation,
    needsMask := match parsed.needsMask with
      | some b => b
      | none => false,
    params := match parsed.params with
      | some p => p
      | none => parsed.rawParams,
    prompt := match parsed.prompt with
      | some s => s
      | none => "",
    response := match parsed.response with
      | some s => if s = "" then "✨ Got it! Click Generate to apply changes." else s
      | none => "✨ Got it! Click Generate to apply changes." }

/-- The request body of the `POST` handler (route.ts lines 59-68);
`userMessage = none` models an absent field. -/
structure AgentRequestBody where
  userMessage : Option String
  currentParams : FIBOParams
  hasMask : Bool
deriving Repr

/-- The outcome of the `POST` handler: a JSON success payload or an error
payload with its HTTP status. -/
inductive PostResult where
  | success (resp : AgentResponse)
  | error (status : Nat) (message : String)
deriving DecidableEq, Repr

/-- The `POST` handler (route.ts lines 65-110).  `openaiKey` is the
`AZURE_OPENAI_API_KEY` environment value; `llmOutcome` stands for the result of
the external `callOpenAI` call up to and including JSON-parsing its body — an
exception there is caught by the catch-all of the handler and surfaces as the 500
error.  A missing or empty (JS-falsy) `userMessage` is rejected with status
400 before either resolver runs. -/
def POST (body : AgentRequestBody) (openaiKey : Option String)
    (llmOutcome : Except String LLMParsed) : PostResult :=
  match body.userMessage with
  | none => .error 400 "User message is required"
  | some m =>
    if m = "" then .error 400 "User message is required"
    else
      match openaiKey with
      | some _ =>
        match llmOutcome with
        | .ok parsed => .success (llmValidate parsed body.hasMask)
        | .error _ => .error 500 "Failed to process instruction"
      | none => .success (mockAgentResponse m body.currentParams body.hasMask)

/- ## Helper lemmas -/

/-- The string membership test of route.ts line 271 agrees with membership in
the three-element operation list. -/
theorem maskStrings_contains_eq (op : OperationType) (b : Bool) :
    ((maskRequiredStrings.contains (opString op) && !b) = true) ↔
      (op ∈ maskRequiredOps ∧ b = false) := by
  cases op <;> cases b <;> decide

/-- `operation.startsWith "inpaint"` singles out exactly the three
mask-required operations. -/
theorem startsWith_inpaint_iff (op : OperationType) :
    ((some (if jsStartsWith (opString op) "inpaint" then "mask" else "full") = some "mask") ↔
      op ∈ maskRequiredOps) ∧
    ((some (if jsStartsWith (opString op) "inpaint" then "mask" else "full") = some "full") ↔
      op ∉ maskRequiredOps) := by
  cases op <;> exact ⟨by decide, by decide⟩

/-- A tag outside the allow-list does not decode. -/
theorem parseOperation_none_of_not_valid (t : String)
    (hv : validOperations.contains t = false) : parseOperation t = none := by
  unfold parseOperation
  split_ifs with h1 h2 h3 h4 h5 h6
  · subst h1; exact absurd hv (by decide)
  · subst h2; exact absurd hv (by decide)
  · subst h3; exact absurd hv (by decide)
  · subst h4; exact absurd hv (by decide)
  · subst h5; exact absurd hv (by decide)
  · subst h6; exact absurd hv (by decide)
  · rfl

/-- Every operation tag the enumeration can produce is on the allow-list. -/
theorem opString_mem_validOperations (op : OperationType) :
    opString op ∈ validOperations := by
  cases op <;> decide

/-- Left-yaw adjustment keeps an in-range yaw in `[-180, 180]`. -/
theorem adjustYawLeft_bounds (lower : List Char) (y : Int)
    (h1 : -180 ≤ y) (h2 : y ≤ 180) :
    -180 ≤ adjustYawLeft lower y ∧ adjustYawLeft lower y ≤ 180 := by
  unfold adjustYawLeft
  split_ifs <;> refine ⟨?_, ?_⟩ <;>
    first
    | assumption
    | (simp only [le_max_iff, max_le_iff]; omega)

/-- Right-yaw adjustment keeps an in-range yaw in `[-180, 180]`. -/
theorem adjustYawRight_bounds (lower : List Char) (y : Int)
    (h1 : -180 ≤ y) (h2 : y ≤ 180) :
    -180 ≤ adjustYawRight lower y ∧ adjustYawRight lower y ≤ 180 := by
  unfold adjustYawRight
  split_ifs <;> refine ⟨?_, ?_⟩ <;>
    first
    | assumption
    | (simp only [le_min_iff, min_le_iff]; omega)

/-- Zoom-in adjustment keeps an in-range field of view in `[10, 120]`. -/
theorem adjustFovIn_bounds (lower : List Char) (f : Int)
    (h1 : 10 ≤ f) (h2 : f ≤ 120) :
    10 ≤ adjustFovIn lower f ∧ adjustFovIn lower f ≤ 120 := by
  unfold adjustFovIn
  split_ifs <;> refine ⟨?_, ?_⟩ <;>
    first
    | assumption
    | (simp only [le_max_iff, max_le_iff]; omega)

/-- Zoom-out adjustment keeps an in-range field of view in `[10, 120]`. -/
theorem adjustFovOut_bounds (lower : List Char) (f : Int)
    (h1 : 10 ≤ f) (h2 : f ≤ 120) :
    10 ≤ adjustFovOut lower f ∧ adjustFovOut lower f ≤ 120 := by
  unfold adjustFovOut
  split_ifs <;> refine ⟨?_, ?_⟩ <;>
    first
    | assumption
    | (simp only [le_min_iff, min_le_iff]; omega)

/- ## Claim theorems -/

/-- Claim C1: for every `userMessage`, `currentParams` and `hasMask`, the
rule-based resolver returns `needsMask = true` exactly when the returned
operation is one of the three inpaint operations and `hasMask` is `false`. -/
theorem mock_needsMask_iff_inpaint_and_no_mask (msg : String) (p : FIBOParams) (hm : Bool) :
    (mockAgentResponse msg p hm).needsMask = true ↔
      ((mockAgentResponse msg p hm).operation ∈ maskRequiredOps ∧ hm = false) :=
  maskStrings_contains_eq ((classifyIntent msg (lowerOf msg) hm).operation) hm

/-- Claim C6: for every input, the rule-based resolver sets
`params.edit_mode` to `"mask"` exactly when the returned operation is one of
the three inpaint operations, and to `"full"` exactly otherwise. -/
theorem edit_mode_matches_operation_class (msg : String) (p : FIBOParams) (hm : Bool) :
    ((mockAgentResponse msg p hm).params.edit_mode = some "mask" ↔
      (mockAgentResponse msg p hm).operation ∈ maskRequiredOps) ∧
    ((mockAgentResponse msg p hm).params.edit_mode = some "full" ↔
      (mockAgentResponse msg p hm).operation ∉ maskRequiredOps) :=
  startsWith_inpaint_iff ((classifyIntent msg (lowerOf msg) hm).operation)

/-- Claim C9: for every input, the rule-based resolver leaves `camera.pitch`,
`camera.roll`, `composition`, `realism_level` and `output_format` exactly as
in the input parameters; in particular the vertical instructions "tilt up"
and "look down" change neither pitch nor roll. -/
theorem mock_preserves_untouched_fields (msg : String) (p : FIBOParams) (hm : Bool) :
    (mockAgentResponse msg p hm).params.camera.pitch = p.camera.pitch ∧
    (mockAgentResponse msg p hm).params.camera.roll = p.camera.roll ∧
    (mockAgentResponse msg p hm).params.composition = p.composition ∧
    (mockAgentResponse msg p hm).params.realism_level = p.realism_level ∧
    (mockAgentResponse msg p hm).params.output_format = p.output_format ∧
    (mockAgentResponse "tilt up" p hm).params.camera.pitch = p.camera.pitch ∧
    (mockAgentResponse "tilt up" p hm).params.camera.roll = p.camera.roll ∧
    (mockAgentResponse "look down" p hm).params.camera.pitch = p.camera.pitch ∧
    (mockAgentResponse "look down" p hm).params.camera.roll = p.camera.roll :=
  ⟨rfl, rfl, rfl, rfl, rfl, rfl, rfl, rfl, rfl⟩

/-- Claim C5: whenever the input camera fields are within bounds
(`yaw ∈ [-180, 180]`, `fov ∈ [10, 120]`), the rule-based resolver returns
camera fields again within those bounds after any additive yaw or fov
adjustment; in particular "rotate hard left" from `yaw = -170` clamps to
`-180` rather than reaching `-215`. -/
theorem camera_bounds_preserved :
    (∀ (msg : String) (p : FIBOParams) (hm : Bool),
      -180 ≤ p.camera.yaw → p.camera.yaw ≤ 180 →
      10 ≤ p.camera.fov → p.camera.fov ≤ 120 →
      (-180 ≤ (mockAgentResponse msg p hm).params.camera.yaw ∧
       (mockAgentResponse msg p hm).params.camera.yaw ≤ 180 ∧
       10 ≤ (mockAgentResponse msg p hm).params.camera.fov ∧
       (mockAgentResponse msg p hm).params.camera.fov ≤ 120)) ∧
    (mockAgentResponse "rotate hard left"
      { DEFAULT_FIBO_PARAMS with camera := { yaw := -170, pitch := 0, roll := 0, fov := 40 } }
      false).params.camera.yaw = -180 := by
  constructor
  · intro msg p hm h1 h2 h3 h4
    have hyl := adjustYawLeft_bounds (lowerOf msg) p.camera.yaw h1 h2
    have hy := adjustYawRight_bounds (lowerOf msg) _ hyl.1 hyl.2
    have hfi := adjustFovIn_bounds (lowerOf msg) p.camera.fov h3 h4
    have hf := adjustFovOut_bounds (lowerOf msg) _ hfi.1 hfi.2
    exact ⟨hy.1, hy.2, hf.1, hf.2⟩
  · rfl

/-- Claim C5 witness: a concrete in-bounds input whose resolver output is
again in bounds. -/
theorem camera_bounds_preserved_witness :
    -180 ≤ (mockAgentResponse "rotate left" DEFAULT_FIBO_PARAMS false).params.camera.yaw ∧
    (mockAgentResponse "rotate left" DEFAULT_FIBO_PARAMS false).params.camera.yaw ≤ 180 ∧
    10 ≤ (mockAgentResponse "rotate left" DEFAULT_FIBO_PARAMS false).params.camera.fov ∧
    (mockAgentResponse "rotate left" DEFAULT_FIBO_PARAMS false).params.camera.fov ≤ 120 :=
  camera_bounds_preserved.1 "rotate left" DEFAULT_FIBO_PARAMS false
    (by decide) (by decide) (by decide) (by decide)

/-- Claim C7: the lighting produced by the rule-based resolver is decided by
the last matching check of the fixed order dramatic, soft, natural/daylight,
neon (so the reverse order has first-match priority), and the color palette
by the last matching check of the order warm, cool/cold, vibrant; in
particular a message with both "dramatic" and "soft" yields `studio_soft`,
and one with both "soft" and "neon" yields `neon`. -/
theorem lighting_color_last_wins :
    (∀ (msg : String) (p : FIBOParams) (hm : Bool),
      (mockAgentResponse msg p hm).params.lighting =
        (if hasSub (lowerOf msg) "neon" then "neon"
         else if hasSub (lowerOf msg) "natural" || hasSub (lowerOf msg) "daylight" then
           "natural_daylight"
         else if hasSub (lowerOf msg) "soft" then "studio_soft"
         else if hasSub (lowerOf msg) "dramatic" then "dramatic_side"
         else p.lighting) ∧
      (mockAgentResponse msg p hm).params.color_palette =
        (if hasSub (lowerOf msg) "vibrant" then some "vibrant"
         else if hasSub (lowerOf msg) "cool" || hasSub (lowerOf msg) "cold" then some "cool"
         else if hasSub (lowerOf msg) "warm" then some "warm"
         else p.color_palette)) ∧
    (mockAgentResponse "dramatic and soft" DEFAULT_FIBO_PARAMS false).params.lighting =
      "studio_soft" ∧
    (mockAgentResponse "soft and neon" DEFAULT_FIBO_PARAMS false).params.lighting = "neon" := by
  refine ⟨fun msg p hm => ⟨?_, ?_⟩, rfl, rfl⟩
  · show updateLighting (lowerOf msg) p.lighting = _
    simp only [updateLighting]
  · show updateColor (lowerOf msg) p.color_palette = _
    simp only [updateColor]

/-- Claim C2: after the LLM response body has been parsed, the validated
operation is always one of the six enumerated operations, and an absent or
invalid operation tag is replaced by `inpaint_replace` when a mask is present
and by `style_transfer` otherwise. -/
theorem llm_operation_validation :
    (∀ (parsed : LLMParsed) (hm : Bool),
      opString (llmValidate parsed hm).operation ∈ validOperations) ∧
    (∀ (parsed : LLMParsed) (hm : Bool),
      (parsed.operation = none ∨
        ∃ t, parsed.operation = some t ∧ validOperations.contains t = false) →
      (llmValidate parsed hm).operation =
        (if hm then OperationType.inpaint_replace else OperationType.style_transfer)) := by
  constructor
  · intro parsed hm
    exact opString_mem_validOperations _
  · intro parsed hm h
    rcases h with h | ⟨t, ht, hv⟩
    · simp [llmValidate, h]
    · simp [llmValidate, ht, parseOperation_none_of_not_valid t hv]

/-- Claim C2 witness: the invalid tag "banana" with a mask present validates
to `inpaint_replace`, a member of the enumeration. -/
theorem llm_operation_validation_witness :
    opString (llmValidate
      ⟨some "banana", none, none, DEFAULT_FIBO_PARAMS, none, none⟩ true).operation ∈
        validOperations ∧
    (llmValidate
      ⟨some "banana", none, none, DEFAULT_FIBO_PARAMS, none, none⟩ true).operation =
        OperationType.inpaint_replace :=
  ⟨llm_operation_validation.1 ⟨some "banana", none, none, DEFAULT_FIBO_PARAMS, none, none⟩ true,
   llm_operation_validation.2 ⟨some "banana", none, none, DEFAULT_FIBO_PARAMS, none, none⟩ true
     (Or.inr ⟨"banana", rfl, by decide⟩)⟩

/-- Claim C3 counterexample: the message
"remove the sky and change it to sunset" contains both the replace-verb
"change" and the connector "to" as word-bounded words, yet the rule-based
resolver classifies it as `inpaint_remove`, because the removal branch is
tested first — refuting the claim that such messages are always classified
`inpaint_replace` no matter what other keywords are present. -/
theorem replace_priority_counterexample :
    containsWord (lowerOf "remove the sky and change it to sunset") "change" = true ∧
    containsWord (lowerOf "remove the sky and change it to sunset") "to" = true ∧
    (mockAgentResponse "remove the sky and change it to sunset"
      DEFAULT_FIBO_PARAMS false).operation = OperationType.inpaint_remove ∧
    OperationType.inpaint_remove ≠ OperationType.inpaint_replace :=
  ⟨rfl, rfl, rfl, by decide⟩

/-- Claim C3 amended: for every message that does not match the removal
pattern and does match the replace pattern — a word-bounded replace-verb
followed later by a word-bounded connector with no line terminator between
them — the rule-based resolver classifies `inpaint_replace`, regardless of
`hasMask`. -/
theorem replace_pattern_classifies_inpaint_replace (msg : String) (p : FIBOParams)
    (hm : Bool)
    (h1 : removeTestB (lowerOf msg) = false)
    (h2 : replaceTestB (lowerOf msg) = true) :
    (mockAgentResponse msg p hm).operation = OperationType.inpaint_replace := by
  show (classifyIntent msg (lowerOf msg) hm).operation = _
  simp only [classifyIntent, h1, h2]
  rcases hre : replaceExtract (lowerOf msg) with _ | ⟨g1, g2⟩ <;> simp [hre]

/-- Claim C3 amended witness: "change the sky to sunset" matches the replace
pattern and not the removal pattern, and is classified `inpaint_replace`
even with a mask present. -/
theorem replace_pattern_classifies_inpaint_replace_witness :
    removeTestB (lowerOf "change the sky to sunset") = false ∧
    replaceTestB (lowerOf "change the sky to sunset") = true ∧
    (mockAgentResponse "change the sky to sunset" DEFAULT_FIBO_PARAMS true).operation =
      OperationType.inpaint_replace :=
  ⟨rfl, rfl,
   replace_pattern_classifies_inpaint_replace "change the sky to sunset"
     DEFAULT_FIBO_PARAMS true rfl rfl⟩

/-- Claim C4: a message matching the add pattern but neither the removal nor
the replace pattern is classified `inpaint_add` when a mask is present and
`style_transfer` when it is not. -/
theorem add_pattern_mask_dependent_classification (msg : String) (p : FIBOParams)
    (h1 : addTestB (lowerOf msg) = true)
    (h2 : removeTestB (lowerOf msg) = false)
    (h3 : replaceTestB (lowerOf msg) = false) :
    (mockAgentResponse msg p true).operation = OperationType.inpaint_add ∧
    (mockAgentResponse msg p false).operation = OperationType.style_transfer := by
  constructor <;>
  · show (classifyIntent msg (lowerOf msg) _).operation = _
    simp [classifyIntent, h1, h2, h3]

/-- Claim C4 witness: "add flowers here" is classified `inpaint_add` with a
mask and `style_transfer` without one. -/
theorem add_pattern_mask_dependent_classification_witness :
    (mockAgentResponse "add flowers here" DEFAULT_FIBO_PARAMS true).operation =
      OperationType.inpaint_add ∧
    (mockAgentResponse "add flowers here" DEFAULT_FIBO_PARAMS false).operation =
      OperationType.style_transfer :=
  add_pattern_mask_dependent_classification "add flowers here" DEFAULT_FIBO_PARAMS
    rfl rfl rfl

/-- Claim C8: a missing or empty `userMessage` is rejected with the 400
client-error payload before any resolution runs (no success payload is
produced), while an external-service failure on the LLM path yields the
distinct 500 error. -/
theorem post_rejects_empty_message :
    (∀ (body : AgentRequestBody) (key : Option String) (llm : Except String LLMParsed),
      (body.userMessage = none ∨ body.userMessage = some "") →
      (POST body key llm = PostResult.error 400 "User message is required" ∧
       ∀ r, POST body key llm ≠ PostResult.success r)) ∧
    (∀ (m : String) (p : FIBOParams) (hm : Bool) (k e : String),
      m ≠ "" →
      POST ⟨some m, p, hm⟩ (some k) (Except.error e) =
        PostResult.error 500 "Failed to process instruction") ∧
    (400 : Nat) ≠ 500 := by
  refine ⟨?_, ?_, by decide⟩
  · intro body key llm h
    have h400 : POST body key llm = PostResult.error 400 "User message is required" := by
      rcases h with h | h <;> simp [POST, h]
    refine ⟨h400, fun r hr => ?_⟩
    rw [h400] at hr
    exact PostResult.noConfusion hr
  · intro m p hm k e hne
    simp [POST, hne]

/-- Claim C8 witness: a missing message is rejected with 400 and a non-empty
message whose external call fails yields 500. -/
theorem post_rejects_empty_message_witness :
    POST ⟨none, DEFAULT_FIBO_PARAMS, false⟩ none (Except.error "boom") =
      PostResult.error 400 "User message is required" ∧
    POST ⟨some "hi", DEFAULT_FIBO_PARAMS, false⟩ (some "key") (Except.error "boom") =
      PostResult.error 500 "Failed to process instruction" :=
  ⟨(post_rejects_empty_message.1 ⟨none, DEFAULT_FIBO_PARAMS, false⟩ none
      (Except.error "boom") (Or.inl rfl)).1,
   post_rejects_empty_message.2.1 "hi" DEFAULT_FIBO_PARAMS false "key" "boom" (by decide)⟩

/-- Claim C10: a message matching the add pattern (and neither the removal
nor the replace pattern) with no mask is classified as the mask-free
`style_transfer`, yet the returned prompt and user-facing response still
refer to the marked area, and the mask gate does not override the response
because the operation is not inpaint-class (`needsMask` is `false`). -/
theorem add_without_mask_marked_area_prompt (msg : String) (p : FIBOParams)
    (h1 : addTestB (lowerOf msg) = true)
    (h2 : removeTestB (lowerOf msg) = false)
    (h3 : replaceTestB (lowerOf msg) = false) :
    (mockAgentResponse msg p false).operation = OperationType.style_transfer ∧
    (mockAgentResponse msg p false).needsMask = false ∧
    ∃ sd, (mockAgentResponse msg p false).params.subject_description = some sd ∧
      (mockAgentResponse msg p false).prompt =
        "Add " ++ sd ++ " in the marked area, blend seamlessly" ∧
      (mockAgentResponse msg p false).response =
        "✨ I\u0027ll add \"" ++ sd ++ "\" to the marked area. Click Generate!" := by
  have hc : classifyIntent msg (lowerOf msg) false =
      { operation := .style_transfer,
        subject := some (match addExtract (lowerOf msg) with
          | some cap => String.mk (trimWs cap)
          | none => msg),
        prompt := "Add " ++ (match addExtract (lowerOf msg) with
          | some cap => String.mk (trimWs cap)
          | none => msg) ++ " in the marked area, blend seamlessly",
        response := "✨ I\u0027ll add \"" ++ (match addExtract (lowerOf msg) with
          | some cap => String.mk (trimWs cap)
          | none => msg) ++ "\" to the marked area. Click Generate!" } := by
    simp [classifyIntent, h1, h2, h3]
  refine ⟨?_, ?_,
    (match addExtract (lowerOf msg) with
      | some cap => String.mk (trimWs cap)
      | none => msg), ?_, ?_, ?_⟩ <;>
    simp [mockAgentResponse, hc, maskRequiredStrings, opString]

/-- Claim C10 witness: "add flowers here" without a mask degrades to
`style_transfer` while the prompt and response still reference the marked
area. -/
theorem add_without_mask_marked_area_prompt_witness :
    (mockAgentResponse "add flowers here" DEFAULT_FIBO_PARAMS false).operation =
      OperationType.style_transfer ∧
    (mockAgentResponse "add flowers here" DEFAULT_FIBO_PARAMS false).needsMask = false ∧
    ∃ sd, (mockAgentResponse "add flowers here" DEFAULT_FIBO_PARAMS
        false).params.subject_description = some sd ∧
      (mockAgentResponse "add flowers here" DEFAULT_FIBO_PARAMS false).prompt =
        "Add " ++ sd ++ " in the marked area, blend seamlessly" ∧
      (mockAgentResponse "add flowers here" DEFAULT_FIBO_PARAMS false).response =
        "✨ I\u0027ll add \"" ++ sd ++ "\" to the marked area. Click Generate!" :=
  add_without_mask_marked_area_prompt "add flowers here" DEFAULT_FIBO_PARAMS rfl rfl rfl

end MagicLens
